import Mathlib

/-!
Shallow embedding of `examples/lpcomp-demo/src/main.rs` from nrf52-hal:
an RTIC application that configures the LPCOMP analog comparator to wake
the nRF52840 from System OFF, drives an LED from the comparator result,
and shuts down on a button press.

The embedding models the device-visible state touched by the program
(pending events, LED level, the POWER.RESETREAS register, the SYSTEMOFF
request, the interrupt-enable master switch) and each handler as a pure
function returning the new state together with a trace of the actions it
performed, in program order.
-/

namespace LpcompDemo

/-- `hal::gpio::Level`: the two physical output levels of a GPIO pin. -/
inductive Level where
  | low
  | high
deriving DecidableEq, Repr

/-- `hal::lpcomp::CompResult`: result of `LpComp::read()`, the sampled
comparison of the input voltage against the reference. -/
inductive CompResult where
  | above
  | below
deriving DecidableEq, Repr

/-- `hal::lpcomp::Transition`: which crossing direction(s) an LPCOMP
detect mechanism is armed on. -/
inductive Transition where
  | up
  | down
  | cross
deriving DecidableEq, Repr

/-- A single crossing direction of the analog input w.r.t. the reference. -/
inductive Dir where
  | upward
  | downward
deriving DecidableEq, Repr

/-- The device-visible state the demo program reads or mutates. -/
structure DeviceState where
  /-- LPCOMP events pending (cleared by `lpcomp.reset_events()`). -/
  compEventPending : Bool
  /-- GPIOTE events pending (cleared by `gpiote.reset_events()`). -/
  gpioteEventPending : Bool
  /-- The current analog comparison, as sampled by `lpcomp.read()`.
  Environment-driven: the handlers read it but never change it. -/
  compValue : CompResult
  /-- Physical level of the LED pin `led1` (P0.13, push-pull). The board
  LED is active-low: `init` drives it `high` (off); `set_low` lights it. -/
  led1 : Level
  /-- The `POWER.RESETREAS` register, as a bit vector in a `Nat`.
  Every bit is write-one-to-clear. -/
  resetreas : Nat
  /-- Whether `POWER.SYSTEMOFF` has been written with `ENTER`. -/
  systemOff : Bool
  /-- Master interrupt enable (cleared by `cortex_m::interrupt::disable`). -/
  interruptsEnabled : Bool
deriving DecidableEq, Repr

/-- The observable actions a handler performs, in program order. -/
inductive Action where
  | clearCompEvents
  | readComp (r : CompResult)
  | setLed (l : Level)
  | clearGpioteEvents
  | log (s : String)
  | writeSystemOff
  | wfi
  | disableInterrupts
  | logPanicInfo
  | fence
deriving DecidableEq, Repr

/-- The board polarity table for the indicator: the LED is active-low,
so the active (lit) physical level is `low`. -/
def ledActiveLevel : Level := Level.low

/-- The inactive (off) physical level: `high`, the level `init` boots
`led1` at (`into_push_pull_output(Level::High)`). -/
def ledInactiveLevel : Level := Level.high

/-- The level `on_comp` writes for a given comparator result:
`Above => set_low()`, `Below => set_high()`. -/
def levelFor : CompResult → Level
  | CompResult.above => Level.low
  | CompResult.below => Level.high

/-- `fn on_comp` (task bound to `COMP_LPCOMP`):
`lpcomp.reset_events(); match lpcomp.read() { Above => led1.set_low(), Below => led1.set_high() }`. -/
def on_comp (s : DeviceState) : DeviceState × List Action :=
  let s1 := { s with compEventPending := false }
  let r := s1.compValue
  let s2 := { s1 with led1 := levelFor r }
  (s2, [Action.clearCompEvents, Action.readComp r, Action.setLed (levelFor r)])

/-- `power.systemoff.write(|w| w.systemoff().enter())`: the system-off
request. The SYSTEMOFF register latches the enter request. -/
def requestSystemOff (s : DeviceState) : DeviceState :=
  { s with systemOff := true }

/-- `fn on_gpiote` (task bound to `GPIOTE`):
`gpiote.reset_events(); rprintln!("Power OFF"); power.systemoff.write(|w| w.systemoff().enter())`. -/
def on_gpiote (s : DeviceState) : DeviceState × List Action :=
  let s1 := { s with gpioteEventPending := false }
  let s2 := requestSystemOff s1
  (s2, [Action.clearGpioteEvents, Action.log "Power OFF", Action.writeSystemOff])

/-! ## POWER.RESETREAS: the wake-reason latch

`RESETREAS` records the cause of the last reset/wake. Every bit is
write-one-to-clear (W1C): writing `1` to a bit clears it, writing `0`
leaves it unchanged. On the nRF52840 the `LPCOMP` field (reset due to
wake up from System OFF triggered by the ANADETECT signal of the
comparator) is bit 17. -/

/-- Bit index of the `LPCOMP` field of `POWER.RESETREAS`. -/
def lpcompBitIdx : Nat := 17

/-- Bit mask of the `LPCOMP` field of `POWER.RESETREAS`. -/
def lpcompMask : Nat := 2 ^ lpcompBitIdx

/-- Write-one-to-clear register write: every bit set in the written
value `v` that is currently set in `reg` is cleared; all other bits of
`reg` are unchanged. (`reg &&& v` is exactly the set bits being cleared.) -/
def w1cWrite (reg v : Nat) : Nat := reg - (reg &&& v)

/-- `ctx.device.POWER.resetreas.read().lpcomp().is_detected()`:
the LPCOMP wake-reason bit of the register. -/
def wasWokenByComparator (reg : Nat) : Bool := reg.testBit lpcompBitIdx

/-- `resetreas.modify(|_r, w| w.lpcomp().set_bit())`: svd2rust `modify`
reads the register, initialises the writer with the read value, applies
the closure (which sets the `lpcomp` bit on top), and writes the result
back. On the W1C register the written value is `reg ||| lpcompMask`. -/
def clearLpcompResetReason (reg : Nat) : Nat :=
  w1cWrite reg (reg ||| lpcompMask)

/-- The wake-reason bookkeeping of `fn init`: if the LPCOMP bit is
detected, clear it via `modify` (and log); otherwise leave the register
alone. -/
def initWakeCheck (reg : Nat) : Nat :=
  if wasWokenByComparator reg then clearLpcompResetReason reg else reg

/-- A comparator-induced wake from System OFF: hardware latches the
`LPCOMP` bit of `RESETREAS`. -/
def comparatorWake (reg : Nat) : Nat := reg ||| lpcompMask

/-! ## Boot-time comparator configuration -/

/-- `hal::lpcomp::VRef` reference selection; `init` uses `VRef::ARef`
(external analog reference). -/
inductive VRefSel where
  | internalFraction (n : Nat)
  | aRef
deriving DecidableEq, Repr

/-- The comparator configuration assembled by `fn init` (spec §3
`ComparatorConfig`, plus the `ANADETECT` wake transition it programs). -/
structure ComparatorConfig where
  vref : VRefSel
  /-- The external analog reference pin, when one was bound
  (`aref_pin(&ref_pin)`). -/
  refPin : Option Nat
  hysteresis : Bool
  /-- `analog_detect(...)`: the `ANADETECT` transition that wakes the
  device from System OFF. -/
  analogDetect : Transition
  /-- `enable_interrupt(...)`: the transition armed for `COMP_LPCOMP`. -/
  interruptOn : Transition
deriving DecidableEq, Repr

/-- The configuration `fn init` programs:
`vref(VRef::ARef).aref_pin(&ref_pin).hysteresis(true)
.analog_detect(Transition::Up).enable_interrupt(Transition::Cross)`,
with the reference pin P0.03. -/
def bootCompConfig : ComparatorConfig :=
  { vref := VRefSel.aRef
    refPin := some 3
    hysteresis := true
    analogDetect := Transition.up
    interruptOn := Transition.cross }

/-- Modelled from the spec: the `ANADETECT` wake semantics (which
crossing directions wake the device from System OFF for a given armed
transition) lives in the LPCOMP hardware/HAL, not under `src/`.
Per spec §4.1, "Cross" fires on transitions in either direction, and the
data model's `Up`/`Down` arm a single direction each. -/
def wakesOn : Transition → Dir → Bool
  | Transition.up, Dir.upward => true
  | Transition.up, Dir.downward => false
  | Transition.down, Dir.upward => false
  | Transition.down, Dir.downward => true
  | Transition.cross, _ => true

/-- Configuration-error taxonomy of spec §4.1/§7/§8. -/
inductive ConfigError where
  | missingRefPin
  | crossWithoutHysteresis
deriving DecidableEq, Repr

/-- Modelled from the spec: the comparator `configure(cfg)` validation
lives in the HAL, not under `src/`. Per §4.1 it "fails with a
configuration error if ExternalPin is selected without a reference pin",
and per §8 "Cross arming with hysteresis disabled must be rejected or
flagged as a configuration error (oscillation risk)". -/
def configure (cfg : ComparatorConfig) : Except ConfigError Unit :=
  if cfg.vref = VRefSel.aRef ∧ cfg.refPin = none then
    Except.error ConfigError.missingRefPin
  else if cfg.interruptOn = Transition.cross ∧ cfg.hysteresis = false then
    Except.error ConfigError.crossWithoutHysteresis
  else
    Except.ok ()

/-- Whether an action reads or mutates peripheral-associated state
(as opposed to clearing an event flag, logging, or fencing). -/
def Action.touchesState : Action → Bool
  | Action.readComp _ => true
  | Action.setLed _ => true
  | Action.writeSystemOff => true
  | _ => false

/-- Whether an action mutates device state. -/
def Action.mutatesState : Action → Bool
  | Action.setLed _ => true
  | Action.writeSystemOff => true
  | Action.clearCompEvents => true
  | Action.clearGpioteEvents => true
  | Action.disableInterrupts => true
  | _ => false

/-- Count the indicator writes in a trace. -/
def countLedWrites (tr : List Action) : Nat :=
  tr.countP (fun a => match a with | Action.setLed _ => true | _ => false)

/-! ## The idle loop and the panic handler

`fn idle` is `loop { cortex_m::asm::wfi() }` and `fn panic` ends in
`loop { compiler_fence(Ordering::SeqCst) }`: each loop is modelled by a
small-step body function returning `none` when the loop would exit
(break or return) and `some (s, a)` when it performs action `a` and
continues in state `s`, plus a bounded unrolling of the loop. -/

/-- One iteration of the `idle` loop body: exactly `wfi`, no state
change, never an exit. -/
def idleStep (s : DeviceState) : Option (DeviceState × Action) :=
  some (s, Action.wfi)

/-- `n` iterations of the `idle` loop. -/
def idleRun : Nat → DeviceState → DeviceState × List Action
  | 0, s => (s, [])
  | n + 1, s =>
    match idleStep s with
    | none => (s, [])
    | some (s1, a) =>
      let p := idleRun n s1
      (p.1, a :: p.2)

/-- The straight-line prefix of `fn panic`:
`cortex_m::interrupt::disable(); rprintln!("{}", info)`. -/
def panicEntry (s : DeviceState) : DeviceState × List Action :=
  ({ s with interruptsEnabled := false },
    [Action.disableInterrupts, Action.logPanicInfo])

/-- One iteration of the panic loop body: exactly a compiler fence, no
state change, never an exit. -/
def panicLoopStep (s : DeviceState) : Option (DeviceState × Action) :=
  some (s, Action.fence)

/-- `n` iterations of the panic loop. -/
def panicRun : Nat → DeviceState → DeviceState × List Action
  | 0, s => (s, [])
  | n + 1, s =>
    match panicLoopStep s with
    | none => (s, [])
    | some (s1, a) =>
      let p := panicRun n s1
      (p.1, a :: p.2)

/-- An interrupt handler can be dispatched only while the master
interrupt enable is set. -/
def handlerMayRun (s : DeviceState) : Bool := s.interruptsEnabled

/-- A concrete device state used to instantiate universally quantified
results. -/
def demoState : DeviceState :=
  { compEventPending := false
    gpioteEventPending := false
    compValue := CompResult.below
    led1 := Level.high
    resetreas := 0
    systemOff := false
    interruptsEnabled := true }

/-- A configuration arming `Cross` with hysteresis disabled, used to
instantiate the configuration-error result. -/
def crossNoHystCfg : ComparatorConfig :=
  { bootCompConfig with hysteresis := false }

end LpcompDemo

namespace LpcompDemo

/-- C1: For every comparator-crossing interrupt, the handler first clears
the pending comparator event, then reads the comparator result, and writes
the indicator output exactly once: `Above` sets the indicator to the active
physical level (low: the LED is active-low) and `Below` sets it to the
inactive level (high); the handler mutates no other state. -/
theorem on_comp_clears_reads_sets_once (s : DeviceState) :
    (on_comp s).2 =
      [Action.clearCompEvents, Action.readComp s.compValue,
        Action.setLed (levelFor s.compValue)] ∧
    countLedWrites (on_comp s).2 = 1 ∧
    (on_comp s).1.led1 =
      (if s.compValue = CompResult.above then ledActiveLevel else ledInactiveLevel) ∧
    (on_comp s).1.compEventPending = false ∧
    (on_comp s).1.gpioteEventPending = s.gpioteEventPending ∧
    (on_comp s).1.compValue = s.compValue ∧
    (on_comp s).1.resetreas = s.resetreas ∧
    (on_comp s).1.systemOff = s.systemOff ∧
    (on_comp s).1.interruptsEnabled = s.interruptsEnabled := by
  cases h : s.compValue <;>
    simp [on_comp, countLedWrites, levelFor, ledActiveLevel, ledInactiveLevel, h,
      List.countP_cons]

/-- C2: For every button-edge interrupt, the handler first clears the
pending edge event and then issues the system-off request; the system-off
write is the final action of the handler trace, the only state it mutates
beyond clearing its own event is the SYSTEMOFF latch, and the request is a
total operation with no error return. -/
theorem on_gpiote_clear_then_systemoff (s : DeviceState) :
    (on_gpiote s).2 =
      [Action.clearGpioteEvents, Action.log "Power OFF", Action.writeSystemOff] ∧
    (on_gpiote s).2.getLast? = some Action.writeSystemOff ∧
    (on_gpiote s).1.systemOff = true ∧
    (on_gpiote s).1.gpioteEventPending = false ∧
    (on_gpiote s).1.led1 = s.led1 ∧
    (on_gpiote s).1.compEventPending = s.compEventPending ∧
    (on_gpiote s).1.compValue = s.compValue ∧
    (on_gpiote s).1.resetreas = s.resetreas ∧
    (on_gpiote s).1.interruptsEnabled = s.interruptsEnabled := by
  simp [on_gpiote, requestSystemOff]

/-- C6: In both interrupt handlers, the clear-event operation on the
handler's own peripheral is the first action of the trace, hence it
precedes every action that reads or mutates peripheral state. -/
theorem handlers_clear_event_first (s t : DeviceState) :
    (on_comp s).2.head? = some Action.clearCompEvents ∧
    (on_gpiote t).2.head? = some Action.clearGpioteEvents ∧
    (∀ i : Fin (on_comp s).2.length,
      ((on_comp s).2.get i).touchesState = true → 0 < i.val) ∧
    (∀ j : Fin (on_gpiote t).2.length,
      ((on_gpiote t).2.get j).touchesState = true → 0 < j.val) := by
  refine ⟨by simp [on_comp], by simp [on_gpiote], ?_, ?_⟩
  · intro i hi
    rcases i with ⟨iv, hlt⟩
    simp only [on_comp, List.length_cons, List.length_nil] at hlt
    interval_cases iv
    · simp [on_comp, Action.touchesState, List.get] at hi
    · simp
    · simp
  · intro j hj
    rcases j with ⟨jv, hlt⟩
    simp only [on_gpiote, List.length_cons, List.length_nil] at hlt
    interval_cases jv
    · simp [on_gpiote, Action.touchesState, List.get] at hj
    · simp
    · simp

/-- Bitwise absorption: `a &&& (a ||| m) = a`. -/
theorem land_lor_self_left (a m : Nat) : a &&& (a ||| m) = a := by
  apply Nat.eq_of_testBit_eq
  intro i
  rw [Nat.testBit_land, Nat.testBit_lor]
  cases h : a.testBit i <;> simp [h]

/-- The `modify`-based clear zeroes the whole W1C register: the written
value `reg ||| lpcompMask` has a `1` at every bit that was set at read
time, so every such bit is cleared. -/
theorem clearLpcompResetReason_eq_zero (reg : Nat) :
    clearLpcompResetReason reg = 0 := by
  unfold clearLpcompResetReason w1cWrite
  rw [land_lor_self_left]
  exact Nat.sub_self reg

/-- C3 counterexample: the boot configuration programs `ANADETECT` with
`Transition::Up`, so a downward crossing does not wake the device — the
claim that a crossing in either direction wakes it fails. -/
theorem analog_detect_not_cross :
    bootCompConfig.analogDetect = Transition.up ∧
    wakesOn bootCompConfig.analogDetect Dir.downward = false :=
  ⟨rfl, rfl⟩

/-- C3 (amended): the boot-time comparator configuration arms
wake-from-System-OFF on upward transitions only: an upward crossing wakes
the device, a downward crossing does not; the `COMP_LPCOMP` interrupt, by
contrast, is armed on `Cross`. -/
theorem analog_detect_wakes_upward_only :
    wakesOn bootCompConfig.analogDetect Dir.upward = true ∧
    wakesOn bootCompConfig.analogDetect Dir.downward = false ∧
    bootCompConfig.interruptOn = Transition.cross :=
  ⟨rfl, rfl, rfl⟩

/-- C4: after a comparator-induced wake the latch reads true, `init`
observes it and clears it, after which it reads false — until the next
comparator-induced wake latches it again. -/
theorem wake_reason_round_trip (reg : Nat)
    (h : wasWokenByComparator reg = true) :
    wasWokenByComparator (initWakeCheck reg) = false ∧
    wasWokenByComparator (comparatorWake (initWakeCheck reg)) = true := by
  have h' : reg.testBit lpcompBitIdx = true := h
  constructor
  · simp [initWakeCheck, h', clearLpcompResetReason_eq_zero,
      wasWokenByComparator, Nat.zero_testBit]
  · simp [initWakeCheck, h, clearLpcompResetReason_eq_zero, comparatorWake,
      wasWokenByComparator, Nat.testBit_lor, lpcompMask,
      Nat.testBit_two_pow_self]

/-- Witness for C4 at the concrete register value with only the LPCOMP
bit latched. -/
theorem wake_reason_round_trip_witness :
    wasWokenByComparator (2 ^ 17) = true ∧
    (wasWokenByComparator (initWakeCheck (2 ^ 17)) = false ∧
      wasWokenByComparator (comparatorWake (initWakeCheck (2 ^ 17))) = true) :=
  ⟨by decide, wake_reason_round_trip (2 ^ 17) (by decide)⟩

/-- C5: arming the interrupt on `Cross` with hysteresis disabled is a
configuration error, and the program's boot configuration arms `Cross`
with hysteresis enabled and configures without error. -/
theorem cross_without_hysteresis_rejected (cfg : ComparatorConfig)
    (h1 : cfg.interruptOn = Transition.cross) (h2 : cfg.hysteresis = false) :
    (∃ e, configure cfg = Except.error e) ∧
    (bootCompConfig.interruptOn = Transition.cross ∧
      bootCompConfig.hysteresis = true) ∧
    configure bootCompConfig = Except.ok () := by
  refine ⟨?_, ⟨rfl, rfl⟩, rfl⟩
  by_cases hr : cfg.vref = VRefSel.aRef ∧ cfg.refPin = none
  · exact ⟨ConfigError.missingRefPin, by simp [configure, hr]⟩
  · exact ⟨ConfigError.crossWithoutHysteresis, by simp [configure, hr, h1, h2]⟩

/-- Witness for C5 at the boot configuration with hysteresis turned
off. -/
theorem cross_without_hysteresis_rejected_witness :
    crossNoHystCfg.interruptOn = Transition.cross ∧
    crossNoHystCfg.hysteresis = false ∧
    ((∃ e, configure crossNoHystCfg = Except.error e) ∧
      (bootCompConfig.interruptOn = Transition.cross ∧
        bootCompConfig.hysteresis = true) ∧
      configure bootCompConfig = Except.ok ()) :=
  ⟨rfl, rfl, cross_without_hysteresis_rejected crossNoHystCfg rfl rfl⟩

/-- Writing `ENTER` to `SYSTEMOFF` twice is the same as writing it
once. -/
theorem requestSystemOff_requestSystemOff (s : DeviceState) :
    requestSystemOff (requestSystemOff s) = requestSystemOff s := rfl

/-- Iterating the system-off request on an already-requested state is a
no-op. -/
theorem requestSystemOff_iterate_fixed (n : Nat) (s : DeviceState) :
    requestSystemOff^[n] (requestSystemOff s) = requestSystemOff s := by
  induction n with
  | zero => rfl
  | succ k ih =>
    rw [Function.iterate_succ_apply, requestSystemOff_requestSystemOff, ih]

/-- C7: for any `n ≥ 1`, issuing the system-off request `n` times leaves
the power-control state identical to issuing it once; every call after
the first is a no-op. -/
theorem requestSystemOff_idempotent (s : DeviceState) (n : Nat)
    (h : 1 ≤ n) :
    requestSystemOff^[n] s = requestSystemOff s ∧
    (requestSystemOff s).systemOff = true := by
  obtain ⟨m, rfl⟩ : ∃ m, n = m + 1 := ⟨n - 1, by omega⟩
  refine ⟨?_, rfl⟩
  rw [Function.iterate_succ_apply]
  exact requestSystemOff_iterate_fixed m s

/-- Witness for C7: three bounce-induced requests equal one. -/
theorem requestSystemOff_idempotent_witness :
    1 ≤ 3 ∧
    (requestSystemOff^[3] demoState = requestSystemOff demoState ∧
      (requestSystemOff demoState).systemOff = true) :=
  ⟨by decide, requestSystemOff_idempotent demoState 3 (by decide)⟩

/-- Unrolling the idle loop `n` times parks the core `n` times and
leaves the state untouched. -/
theorem idleRun_eq (n : Nat) (s : DeviceState) :
    idleRun n s = (s, List.replicate n Action.wfi) := by
  induction n with
  | zero => rfl
  | succ k ih => simp [idleRun, idleStep, ih, List.replicate_succ]

/-- C9: the idle loop never exits (its body never returns an exit), its
body is exactly the wait-for-interrupt, and any number of iterations
leaves the device state unchanged and emits only non-mutating `wfi`
actions. -/
theorem idle_loop_only_wfi (s : DeviceState) (n : Nat) :
    idleStep s = some (s, Action.wfi) ∧
    idleRun n s = (s, List.replicate n Action.wfi) ∧
    (∀ a ∈ (idleRun n s).2, a = Action.wfi ∧ a.mutatesState = false) := by
  refine ⟨rfl, idleRun_eq n s, ?_⟩
  intro a ha
  rw [idleRun_eq] at ha
  have h2 := List.eq_of_mem_replicate ha
  subst h2
  exact ⟨rfl, rfl⟩

/-- Unrolling the panic loop `n` times fences `n` times and leaves the
state untouched. -/
theorem panicRun_eq (n : Nat) (s : DeviceState) :
    panicRun n s = (s, List.replicate n Action.fence) := by
  induction n with
  | zero => rfl
  | succ k ih => simp [panicRun, panicLoopStep, ih, List.replicate_succ]

/-- C8: the panic handler disables interrupts first, then emits
diagnostics, then loops forever: the loop body never exits, every
iteration leaves the state unchanged and mutates nothing, and since the
master interrupt enable stays cleared no interrupt handler can run
again. -/
theorem panic_halts_forever (s : DeviceState) (n : Nat) :
    (panicEntry s).2 = [Action.disableInterrupts, Action.logPanicInfo] ∧
    (panicEntry s).1.interruptsEnabled = false ∧
    panicLoopStep ((panicRun n (panicEntry s).1).1) =
      some ((panicRun n (panicEntry s).1).1, Action.fence) ∧
    panicRun n (panicEntry s).1 =
      ((panicEntry s).1, List.replicate n Action.fence) ∧
    handlerMayRun ((panicRun n (panicEntry s).1).1) = false ∧
    (∀ a ∈ (panicRun n (panicEntry s).1).2, a.mutatesState = false) := by
  refine ⟨rfl, rfl, rfl, panicRun_eq n _, ?_, ?_⟩
  · rw [panicRun_eq]
    rfl
  · intro a ha
    rw [panicRun_eq] at ha
    have h2 := List.eq_of_mem_replicate ha
    subst h2
    rfl

/-- C10 counterexample: with the LPCOMP bit and the RESETPIN bit (bit 0)
both latched, the `modify`-based clear also clears the RESETPIN bit, so
the other reset-reason bits are not left unchanged. -/
theorem clear_resetreas_clears_other_bits :
    wasWokenByComparator (2 ^ 17 + 1) = true ∧
    (2 ^ 17 + 1 : Nat).testBit 0 = true ∧
    (clearLpcompResetReason (2 ^ 17 + 1)).testBit 0 = false := by
  refine ⟨by decide, by decide, ?_⟩
  rw [clearLpcompResetReason_eq_zero]
  exact Nat.zero_testBit 0

/-- C10 (amended): the clear writes back the read value with the lpcomp
bit set to the write-one-to-clear register, so every reset-reason bit
that was set at the read is cleared — the whole register reads zero
afterwards, not just the lpcomp bit. -/
theorem clear_resetreas_zeroes_register (reg : Nat) :
    clearLpcompResetReason reg = 0 ∧
    wasWokenByComparator (clearLpcompResetReason reg) = false := by
  refine ⟨clearLpcompResetReason_eq_zero reg, ?_⟩
  rw [clearLpcompResetReason_eq_zero]
  exact Nat.zero_testBit _

end LpcompDemo
